import Mathlib

/-!
# Verification of the tronpy async client core (`src/tronpy/async_tron.py`)

A shallow embedding of the transaction-lifecycle and block-scan core of the
repository, with theorems settling the frozen behavioural claims.

Conventions of the embedding:
* Python dict payloads with a fixed schema become Lean structures; fields the
  code reads with `d["k"]` (raising `KeyError` when absent) are `Option` fields
  threaded through `Except`, and fields read with `d.get("k", default)` use
  `Option.getD`.
* Wall-clock values (`time.time()`, `current_timestamp()`) are passed in
  explicitly as integers; `Decimal` and Python `/` scaling are modelled
  exactly over `ℚ`.
* External collaborators (key layer, ABI layer, the HTTP provider) are
  parameters: `b58` models `keys.to_base58check_address` (`none` = the call
  raised), a signer's `sig` models `sign_msg_hash(...).hex()`, and the
  provider is a response table.
-/

namespace Tronpy

/-- One entry of a multi-sig permission's key list (`permission["keys"][i]`). -/
structure PermKey where
  address : String
  weight : Int
  deriving DecidableEq, Repr

/-- An account permission (`permission` dict from `getsignweight`). -/
structure Permission where
  keys : List PermKey
  threshold : Int
  deriving DecidableEq, Repr

/-- The three observable states of `AsyncTransaction._permission`:
the module-level `EMPTY` sentinel ("not yet fetched"), Python `None`
(legacy default permission), or a present permission dict. -/
inductive PermState : Type where
  | empty : PermState
  | none : PermState
  | present (p : Permission) : PermState
  deriving DecidableEq, Repr

/-- The `parameter.value` payload of a contract invocation.  Fields the
scanner reads with `[]` or `.get` are all optional at the dict level. -/
structure CValue where
  owner_address : Option String
  to_address : Option String
  amount : Option Int
  contract_address : Option String
  data : Option String
  deriving DecidableEq, Repr

/-- One entry of `raw_data["contract"]`. -/
structure ContractInv where
  type : String
  value : CValue
  deriving DecidableEq, Repr

/-- `RawTransactionBody` (`AsyncTransaction._raw_data`). -/
structure RawData where
  contract : List ContractInv
  timestamp : Int
  expiration : Int
  ref_block_bytes : Option String
  ref_block_hash : Option String
  fee_limit : Option Int
  deriving DecidableEq, Repr

/-- The state of an `AsyncTransaction` object. -/
structure Tx where
  txid : String
  raw_data : RawData
  permission : PermState
  signature : List String
  deriving DecidableEq, Repr

/-- A signing key: its hex address (`priv_key.public_key.to_hex_address()`),
its base58check address, and `sig` modelling
`priv_key.sign_msg_hash(bytes.fromhex(txid)).hex()`. -/
structure PrivKey where
  hexAddress : String
  b58Address : String
  sig : String → String

/-- The distinct failure exits of `AsyncTransaction.sign`. -/
inductive SignErr : Type where
  /-- `assert self.txid, "txID not calculated"` fired. -/
  | txidNotCalculated : SignErr
  /-- `assert self.is_expired is False, "expired"` fired. -/
  | expired : SignErr
  /-- `BadKey("provided private key is not in the permission list", ..., f"required ...")`:
  carries the required permission set. -/
  | keyNotAuthorized (required : Permission) : SignErr
  /-- subscripting the `EMPTY` sentinel object raises `TypeError`. -/
  | permTypeError : SignErr
  deriving DecidableEq, Repr

/-- `AsyncTransaction.is_expired`: `current_timestamp() >= self._raw_data["expiration"]`. -/
def Tx.is_expired (now : Int) (s : Tx) : Bool :=
  s.raw_data.expiration ≤ now

/-- `AsyncTransaction.sign(priv_key)` at wall clock `now` (ms).  Returns the
failure (if any) together with the object state after the call, so that the
absence of a partial append is part of the result. -/
def Tx.sign (s : Tx) (k : PrivKey) (now : Int) : Option SignErr × Tx :=
  if s.txid = "" then (some .txidNotCalculated, s)
  else if s.is_expired now then (some .expired, s)
  else
    match s.permission with
    | .empty => (some .permTypeError, s)
    | .present p =>
        if p.keys.any (fun kk => kk.address = k.hexAddress) then
          (Option.none, { s with signature := s.signature ++ [k.sig s.txid] })
        else
          (some (.keyNotAuthorized p), s)
    | .none =>
        (Option.none, { s with signature := s.signature ++ [k.sig s.txid] })

/-- Failure exit of `create`/`check_sign_weight`: the `getsignweight` response
had no `transaction` section (`TransactionError("transaction not in sign_weight")`,
possibly preceded by whatever `_handle_api_error` raises on the payload). -/
inductive CreateErr : Type where
  | signWeightMissingTransaction : CreateErr
  deriving DecidableEq, Repr

/-- The provider's answer to `get_sign_weight`: the canonical txid extracted
from `sign_weight["transaction"]["transaction"]["txID"]` when the
`transaction` section is present, and the optional `permission` field. -/
structure WeightResp where
  transaction : Option String
  permission : Option Permission

/-- How a permission value read from a dict enters `_permission`:
`sign_weight.get("permission", None)` / `data["permission"]`. -/
def permOfOption : Option Permission → PermState
  | Option.none => PermState.none
  | some p => PermState.present p

/-- `AsyncTransaction.check_sign_weight`: requires a `transaction` section,
stores the server-side txid and the (possibly absent) permission. -/
def check_sign_weight (resp : WeightResp) (t : Tx) : Except CreateErr Tx :=
  match resp.transaction with
  | Option.none => .error .signWeightMissingTransaction
  | some txid => .ok { t with txid := txid, permission := permOfOption resp.permission }

/-- `AsyncTransaction.__init__(raw_data, txid=, permission=, signature=)`.
The raw body is a schema-level `RawData`, which carries no `raw_data`, `txID`,
`signature` or `permission` key, so each `raw_data.get(k, fallback)` in the
constructor resolves to the fallback argument. -/
def initTx (raw : RawData) (txid : String) (perm : PermState) (sigs : List String) : Tx :=
  { txid := txid, raw_data := raw, permission := perm, signature := sigs }

/-- `AsyncTransaction.create`: builds the object and runs `check_sign_weight`
exactly when the txid is empty or the permission is the `EMPTY` sentinel.
The boolean records whether that weight-check provider round trip happened. -/
def create (resp : WeightResp) (raw : RawData) (txid : String) (perm : PermState)
    (sigs : List String) : Except CreateErr (Tx × Bool) :=
  let t := initTx raw txid perm sigs
  if t.txid = "" ∨ t.permission = .empty then
    (check_sign_weight resp t).map (fun t2 => (t2, true))
  else
    .ok (t, false)

/-- The serialized form produced by `AsyncTransaction.to_json`. -/
structure TxJson where
  txID : String
  raw_data : RawData
  signature : List String
  permission : Option Permission
  deriving DecidableEq, Repr

/-- `AsyncTransaction.to_json`: the `EMPTY` sentinel serializes as `None`. -/
def Tx.to_json (t : Tx) : TxJson :=
  { txID := t.txid
    raw_data := t.raw_data
    signature := t.signature
    permission :=
      match t.permission with
      | .empty => Option.none
      | .none => Option.none
      | .present p => some p }

/-- `AsyncTransaction.from_json` on the dict form: delegates to `create` with
the serialized fields. -/
def from_json (resp : WeightResp) (j : TxJson) : Except CreateErr (Tx × Bool) :=
  create resp j.raw_data j.txID (permOfOption j.permission) j.signature

/-- The non-`result` fields of one node-response dict that
`_handle_api_error` inspects. -/
structure ApiLevel where
  errorF : Option String
  code : Option String
  message : Option String
  deriving DecidableEq, Repr

/-- The possible values of a response dict's `result` entry other than a
nested dict: missing, the boolean `True` (Python `is True`), the boolean
`False`, or any other value. -/
inductive BaseResult : Type where
  | absent : BaseResult
  | rTrue : BaseResult
  | rFalse : BaseResult
  | rOther : BaseResult
  deriving DecidableEq, Repr

/-- A raw node-response payload: its inspected fields plus its `result`
entry, which is either a base value or a nested payload dict. -/
inductive ApiPayload : Type where
  | base (l : ApiLevel) (r : BaseResult) : ApiPayload
  | nestedR (l : ApiLevel) (p : ApiPayload) : ApiPayload
  deriving DecidableEq, Repr

/-- The closed set of exceptions `_handle_api_error` can raise. -/
inductive ApiErrKind : Type where
  | apiError (msg : String)
  | badSignature (msg : String)
  | taposError (msg : String)
  | transactionError (msg : String)
  | validationError (msg : String)
  | unknownError (msg : String) (code : String)
  deriving DecidableEq, Repr

def hexDigit? (c : Char) : Option Nat :=
  if '0' ≤ c ∧ c ≤ '9' then some (c.toNat - '0'.toNat)
  else if 'a' ≤ c ∧ c ≤ 'f' then some (c.toNat - 'a'.toNat + 10)
  else if 'A' ≤ c ∧ c ≤ 'F' then some (c.toNat - 'A'.toNat + 10)
  else Option.none

/-- Pairs of hex digits to byte values; `none` when the digits are invalid
or the length is odd (`bytes.fromhex` raises `ValueError` there). -/
def hexPairs? : List Char → Option (List Nat)
  | [] => some []
  | [_] => Option.none
  | a :: b :: rest => do
      let ha ← hexDigit? a
      let hb ← hexDigit? b
      let r ← hexPairs? rest
      pure ((ha * 16 + hb) :: r)

/-- `bytes.fromhex(m).decode()` restricted to the ASCII plane: `none` models
any raised `ValueError`/`UnicodeDecodeError`. -/
def hexDecodeAscii (s : String) : Option String := do
  let bs ← hexPairs? s.toList
  if bs.all (fun b => b < 128) then
    pure (String.mk (bs.map Char.ofNat))
  else Option.none

/-- The `msg` computed in the `code` branch of `_handle_api_error`:
hex-decode of `payload["message"]` when that succeeds, else
`payload.get("message", str(payload))`. -/
def apiMsg (msgF : Option String) (fallback : String) : String :=
  match msgF with
  | some m => (hexDecodeAscii m).getD m
  | Option.none => fallback

/-- The `code`-field dispatch of `_handle_api_error`. -/
def codeError (c : String) (msg : String) : ApiErrKind :=
  if c = "SIGERROR" then .badSignature msg
  else if c = "TAPOS_ERROR" then .taposError msg
  else if c = "TRANSACTION_EXPIRATION_ERROR" ∨ c = "TOO_BIG_TRANSACTION_ERROR" then
    .transactionError msg
  else if c = "CONTRACT_VALIDATE_ERROR" then .validationError msg
  else .unknownError msg c

/-- `AsyncTron._handle_api_error`: returning `.ok ()` models falling through
without raising. -/
def handleApiError : ApiPayload → Except ApiErrKind Unit
  | .base l r =>
      if r = .rTrue then .ok ()
      else
        match l.errorF with
        | some e => .error (.apiError e)
        | Option.none =>
            match l.code with
            | some c => .error (codeError c (apiMsg l.message (reprStr (ApiPayload.base l r))))
            | Option.none => .ok ()
  | .nestedR l p =>
      match l.errorF with
      | some e => .error (.apiError e)
      | Option.none =>
          match l.code with
          | some c => .error (codeError c (apiMsg l.message (reprStr (ApiPayload.nestedR l p))))
          | Option.none => handleApiError p

/-- The error-kind tags of the closed taxonomy, without message payloads. -/
inductive KindTag : Type where
  | apiError | badSignature | taposError | transactionError | validationError | unknownError
  deriving DecidableEq, Repr

def tagOf : ApiErrKind → KindTag
  | .apiError _ => .apiError
  | .badSignature _ => .badSignature
  | .taposError _ => .taposError
  | .transactionError _ => .transactionError
  | .validationError _ => .validationError
  | .unknownError _ _ => .unknownError

/-- The observable outcome of the classifier: `none` = successful return,
`some tag` = raised an error of that kind. -/
def outcomeTag : Except ApiErrKind Unit → Option KindTag
  | .ok _ => Option.none
  | .error k => some (tagOf k)

/-- Modelled from the spec: the code-to-kind table of §4.4, written from the
spec's words, to be compared with the classifier's behaviour. -/
def specCodeTag (c : String) : KindTag :=
  if c = "SIGERROR" then .badSignature
  else if c = "TAPOS_ERROR" then .taposError
  else if c = "TRANSACTION_EXPIRATION_ERROR" ∨ c = "TOO_BIG_TRANSACTION_ERROR" then
    .transactionError
  else if c = "CONTRACT_VALIDATE_ERROR" then .validationError
  else .unknownError

/-- Modelled from the spec: the claim's stated success condition — no `Error`
or `code` field at any recursion level through nested `result` dicts, and no
explicit `result: false`. -/
def specSuccessStated : ApiPayload → Bool
  | .base l r =>
      decide (l.errorF = Option.none) && decide (l.code = Option.none)
        && !(decide (r = BaseResult.rFalse))
  | .nestedR l p =>
      decide (l.errorF = Option.none) && decide (l.code = Option.none)
        && specSuccessStated p

/-- One answer of `get_transaction_info` inside `wait`'s loop: a receipt, the
`TransactionNotFound` exception (retried), or any other exception (which
propagates — the `except` clause catches only `TransactionNotFound`). -/
inductive PollResp : Type where
  | receipt (r : String) : PollResp
  | notFound : PollResp
  | raised (e : String) : PollResp
  deriving DecidableEq, Repr

/-- The environment of one `wait` call: the provider's answer to the `k`-th
poll, and how much wall-clock time the `k`-th poll round trip consumes
(the subsequent `asyncio.sleep(interval)` is accounted separately). -/
structure WaitEnv where
  responses : Nat → PollResp
  pollDur : Nat → Int

/-- How one `wait` call ends. -/
inductive WaitOutcome : Type where
  | found (r : String) : WaitOutcome
  /-- the final `raise TransactionNotFound("timeout and can not find the transaction")`. -/
  | timeoutNotFound : WaitOutcome
  /-- a non-`TransactionNotFound` fetch error propagated. -/
  | raised (e : String) : WaitOutcome
  /-- artefact of the fuelled model only: ran out of fuel. -/
  | fuelOut : WaitOutcome
  deriving DecidableEq, Repr

/-- The loop of `AsyncTransactionRet.wait`: at clock `t`, about to issue poll
number `k`.  Returns the outcome together with the clock readings at which
polls were actually issued. -/
def waitAux (env : WaitEnv) (interval endTime : Int) :
    Int → Nat → Nat → WaitOutcome × List Int
  | _, _, 0 => (.fuelOut, [])
  | t, k, fuel + 1 =>
      if t < endTime then
        match env.responses k with
        | .receipt r => (.found r, [t])
        | .raised e => (.raised e, [t])
        | .notFound =>
            let rest := waitAux env interval endTime (t + env.pollDur k + interval) (k + 1) fuel
            (rest.1, t :: rest.2)
      else (.timeoutNotFound, [])

/-- `AsyncTransactionRet.wait(timeout, interval)` started at clock `t0`:
`end_time = time.time() + timeout`, then the polling loop. -/
def wait (env : WaitEnv) (timeout interval t0 : Int) (fuel : Nat) :
    WaitOutcome × List Int :=
  waitAux env interval (t0 + timeout) t0 0 fuel

/-- Python slice `s[a:b]` on a string of characters. -/
def strSlice (s : String) (a b : Nat) : String :=
  ((s.toList.drop a).take (b - a)).asString

/-- Python slice `s[a:]`. -/
def strDrop (s : String) (a : Nat) : String :=
  (s.toList.drop a).asString

/-- The fields of a `TransactionInfo` receipt that `result()` inspects.
`receiptResult` is `receipt["receipt"]["result"]`, `none` when either key is
missing (a `KeyError` outside any `try`). -/
structure Receipt where
  result : Option String
  resMessage : Option String
  receiptResult : Option String
  contractResult : Option (List String)
  deriving DecidableEq, Repr

/-- Failure exits of the receipt-interpretation part of `result()`. -/
inductive ResultErr : Type where
  /-- `raise TvmError(msg)`. -/
  | tvmError (msg : String) : ResultErr
  /-- an uncaught `KeyError`/`IndexError` on the receipt dict. -/
  | keyError : ResultErr
  deriving DecidableEq, Repr

/-- The best-effort revert-reason append inside the `FAILED` branch of
`result()`.  `dec` models `tron_abi.decode_single("string",
bytes.fromhex(c0)[4 + 32:])` as one opaque step: `none` models any exception
(bad hex, short payload, ABI mismatch), all swallowed by the bare `except`. -/
def revertMsg (dec : String → Option String) (msg : String)
    (cr : Option (List String)) : String :=
  match cr with
  | some (c0 :: _) =>
      if (4 + 32) * 2 < c0.length then
        match dec c0 with
        | some em => msg ++ ": " ++ em
        | Option.none => msg
      else msg
  | _ => msg

/-- The receipt interpretation of `AsyncTransactionRet.result` once `wait`
has returned a receipt.  `parseOut` models `self._method.parse_output`. -/
def interpretReceipt (dec : String → Option String) (parseOut : String → String)
    (r : Receipt) : Except ResultErr String :=
  if r.result = some "FAILED" then
    let msg := r.resMessage.getD "FAILED"
    match r.receiptResult with
    | Option.none => .error .keyError
    | some rr =>
        .error (.tvmError (if rr = "REVERT" then revertMsg dec msg r.contractResult else msg))
  else
    match r.contractResult with
    | some (c0 :: _) => .ok (parseOut c0)
    | _ => .error .keyError

/-- `int(s, 16)` on plain hex digits: big-endian value, `none` when the
string is empty or has a non-hex character (`ValueError`). -/
def hexToNat? (s : String) : Option Nat :=
  match s.toList with
  | [] => Option.none
  | cs => cs.foldl (fun acc c => do
      let a ← acc
      let d ← hexDigit? c
      pure (a * 16 + d)) (some 0)

/-- Resource usage read off `tx["ret"][0]` with `.get(k, 0)` defaults. -/
structure Resource where
  energy_usage : Int
  net_usage : Int
  energy_fee : Int
  net_fee : Int
  deriving DecidableEq, Repr

/-- One entry of a transaction's `ret` list. -/
structure RetInfo where
  energy_usage : Option Int
  net_usage : Option Int
  energy_fee : Option Int
  net_fee : Option Int
  deriving DecidableEq, Repr

/-- `if "ret" in tx and tx["ret"]: resource = {...}`: `none` models the empty
`resource` dict kept when `ret` is absent or empty. -/
def mkResource : List RetInfo → Option Resource
  | [] => Option.none
  | r :: _ =>
      some ⟨r.energy_usage.getD 0, r.net_usage.getD 0, r.energy_fee.getD 0, r.net_fee.getD 0⟩

/-- A transaction as the scanner sees it: `contracts` is
`tx.get("raw_data", {}).get("contract", [])` (absent collapses to `[]`),
`txID` is the optional `txID` key, `ret` the optional `ret` list. -/
structure ScanTx where
  contracts : List ContractInv
  txID : Option String
  ret : List RetInfo
  deriving DecidableEq, Repr

/-- A decoded token transfer (the dict built by `parse_usdt_transfer`;
`resource` is attached later by the scan loop).  `fromA`/`toA` stand for the
`from`/`to` keys. -/
structure TransferRec where
  block_number : Int
  timestamp : Int
  txid : String
  fromA : String
  toA : String
  amount : ℚ
  method : String
  resource : Option Resource
  deriving DecidableEq, Repr

/-- A decoded native TRX transfer appended by the scan loop. -/
structure NativeRec where
  block_number : Int
  timestamp : Int
  txid : String
  fromA : String
  toA : String
  amount : ℚ
  resource : Option Resource
  deriving DecidableEq, Repr

/-- `AsyncTron.parse_usdt_transfer`: total — every dict access and decode
step sits inside the function's `try`/`except` blocks, so any failure is the
`None` return.  The Python float division `int(...) / 10 ** 6` is modelled
exactly over `ℚ`. -/
def parse_usdt_transfer (b58 : String → Option String) (tx : ScanTx)
    (block_num block_timestamp : Int) : Option TransferRec :=
  match tx.contracts with
  | [] => Option.none
  | c :: _ =>
      let d := (c.value.data).getD ""
      if "a9059cbb".toList.isPrefixOf d.toList then
        match b58 ("41" ++ strSlice d 32 72), hexToNat? (strDrop d 72),
            c.value.owner_address with
        | some toA, some n, some oa =>
            match b58 oa, tx.txID with
            | some fromA, some id =>
                some ⟨block_num, block_timestamp, id, fromA, toA,
                  (n : ℚ) / 10 ^ 6, "transfer", Option.none⟩
            | _, _ => Option.none
        | _, _, _ => Option.none
      else if "23b872dd".toList.isPrefixOf d.toList then
        match b58 ("41" ++ strSlice d 32 72), b58 ("41" ++ strSlice d 72 112),
            hexToNat? (strDrop d 112), tx.txID with
        | some fromA, some toA, some n, some id =>
            some ⟨block_num, block_timestamp, id, fromA, toA,
              (n : ℚ) / 10 ^ 6, "transferFrom", Option.none⟩
        | _, _, _, _ => Option.none
      else Option.none

/-- Exceptions that escape the scan loop itself (no `try` around them there). -/
inductive ScanAbort : Type where
  /-- an uncaught `KeyError` on a required dict field. -/
  | keyError : ScanAbort
  /-- `to_base58check_address` raised outside any `try`. -/
  | b58Error : ScanAbort
  /-- `get_block` raised. -/
  | blockError : ScanAbort
  deriving DecidableEq, Repr

/-- The `stats` accumulator of `scan_block_transfers`. -/
structure ScanStats where
  total_transactions : Nat
  failed_parse : Nat
  successful_parse : Nat
  failed_txids : List String
  deriving DecidableEq, Repr

/-- One entry of the `blocks` list of the scan result. -/
structure BlockRec where
  block_number : Int
  timestamp : Int
  hash : String
  parent_hash : String
  witness_address : String
  transaction_count : Nat
  confirmed : Bool
  deriving DecidableEq, Repr

/-- The scan accumulator (`result` dict of `scan_block_transfers`). -/
structure ScanState where
  blocks : List BlockRec
  trx : List NativeRec
  usdt : List TransferRec
  stats : ScanStats
  deriving DecidableEq, Repr

def initScanState : ScanState := ⟨[], [], [], ⟨0, 0, 0, []⟩⟩

def USDT_CONTRACT_ADDRESS : String := "TR7NHqjeKQxGTCi8q8ZY4pL8otSzgjLj6t"

/-- The native-TRX branch of the per-transaction loop body.  Every dict
access here is unprotected: a missing field aborts the whole scan. -/
def nativeStep (b58 : String → Option String) (address : Option String)
    (block_num ts : Int) (tx : ScanTx) (s : ScanState) : Except ScanAbort ScanState :=
  match tx.contracts with
  | [] => .ok s
  | c :: _ =>
      if c.type = "TransferContract" then
        match c.value.owner_address with
        | Option.none => .error .keyError
        | some oa =>
            match b58 oa with
            | Option.none => .error .b58Error
            | some fromA =>
                match c.value.to_address with
                | Option.none => .error .keyError
                | some ta =>
                    match b58 ta with
                    | Option.none => .error .b58Error
                    | some toA =>
                        match c.value.amount with
                        | Option.none => .error .keyError
                        | some am =>
                            let amount : ℚ := (am : ℚ) / 10 ^ 6
                            let resource := mkResource tx.ret
                            if address = Option.none ∨ address = some fromA
                                ∨ address = some toA then
                              match tx.txID with
                              | Option.none => .error .keyError
                              | some id =>
                                  .ok { s with trx := s.trx
                                    ++ [⟨block_num, ts, id, fromA, toA, amount, resource⟩] }
                            else .ok s
      else .ok s

/-- The token branch of the per-transaction loop body: candidate check
(short-circuit `and`), total counter, parse, and success/failure recording.
A parse failure increments `failed_parse` and then appends `tx["txID"]`; the
model requires the txid up front, which is observationally equal since an
abort discards the whole scan. -/
def usdtStep (b58 : String → Option String) (address : Option String)
    (block_num ts : Int) (tx : ScanTx) (s : ScanState) : Except ScanAbort ScanState :=
  match tx.contracts with
  | [] => .ok s
  | c :: _ =>
      if c.type = "TriggerSmartContract" then
        match c.value.contract_address with
        | Option.none => .error .keyError
        | some ca =>
            match b58 ca with
            | Option.none => .error .b58Error
            | some cb =>
                if cb = USDT_CONTRACT_ADDRESS then
                  let st1 := { s.stats with
                    total_transactions := s.stats.total_transactions + 1 }
                  match parse_usdt_transfer b58 tx block_num ts with
                  | some info =>
                      let info2 := { info with resource := mkResource tx.ret }
                      let st2 := { st1 with
                        successful_parse := st1.successful_parse + 1 }
                      let usdt2 :=
                        if address = Option.none ∨ address = some info2.fromA
                            ∨ address = some info2.toA then
                          s.usdt ++ [info2]
                        else s.usdt
                      .ok { s with usdt := usdt2, stats := st2 }
                  | Option.none =>
                      match tx.txID with
                      | Option.none => .error .keyError
                      | some id =>
                          .ok { s with stats := { st1 with
                            failed_parse := st1.failed_parse + 1,
                            failed_txids := st1.failed_txids ++ [id] } }
                else .ok s
      else .ok s

/-- The whole per-transaction loop body: the TRX branch, then the USDT
branch, on the same transaction. -/
def stepTx (b58 : String → Option String) (address : Option String)
    (block_num ts : Int) (tx : ScanTx) (s : ScanState) : Except ScanAbort ScanState := do
  let s1 ← nativeStep b58 address block_num ts tx s
  usdtStep b58 address block_num ts tx s1

/-- `block["block_header"]["raw_data"]` of a fetched block. -/
structure BlockHeader where
  timestamp : Int
  parentHash : Option String
  witness_address : Option String
  deriving DecidableEq, Repr

/-- A block as returned by `get_block`; an absent `transactions` key and an
empty list behave identically (both falsy) and are merged. -/
structure Block where
  header : BlockHeader
  blockID : Option String
  transactions : List ScanTx
  confirmed : Option Bool
  deriving DecidableEq, Repr

/-- The per-block body of `scan_block_transfers`: fetch, record the header,
then run both branches over each contained transaction. -/
def stepBlock (b58 : String → Option String) (provider : Int → Option Block)
    (address : Option String) (s : ScanState) (block_num : Int) :
    Except ScanAbort ScanState := do
  match provider block_num with
  | Option.none => .error .blockError
  | some block =>
      match b58 (block.header.witness_address.getD "") with
      | Option.none => .error .b58Error
      | some wa =>
          let s1 := { s with blocks := s.blocks ++ [⟨block_num,
            block.header.timestamp, block.blockID.getD "",
            block.header.parentHash.getD "", wa, block.transactions.length,
            block.confirmed.getD true⟩] }
          block.transactions.foldlM
            (fun st tx => stepTx b58 address block_num block.header.timestamp tx st) s1

/-- `range(start_block, end_block + 1)`. -/
def blockRange (start_block end_block : Int) : List Int :=
  (List.range (end_block + 1 - start_block).toNat).map (fun i => start_block + i)

/-- `AsyncTron.scan_block_transfers(start_block, end_block, address)` with an
explicit end block. -/
def scan_block_transfers (b58 : String → Option String)
    (provider : Int → Option Block) (address : Option String)
    (start_block end_block : Int) : Except ScanAbort ScanState :=
  (blockRange start_block end_block).foldlM (stepBlock b58 provider address) initScanState

/-- The counting invariant of the scan accumulator. -/
def StatsInv (s : ScanState) : Prop :=
  s.stats.successful_parse + s.stats.failed_parse = s.stats.total_transactions
    ∧ s.stats.failed_txids.length = s.stats.failed_parse

end Tronpy

namespace Tronpy

/-- Concrete fixtures used by counterexamples and witnesses. -/
def permAA : Permission := ⟨[⟨"41aa", 1⟩], 1⟩

def keyBB : PrivKey := ⟨"41bb", "Tbb", fun _ => "00ff"⟩

def txFixture : Tx :=
  { txid := "ab"
    raw_data :=
      { contract := []
        timestamp := 0
        expiration := 10
        ref_block_bytes := Option.none
        ref_block_hash := Option.none
        fee_limit := Option.none }
    permission := .present permAA
    signature := [] }

def txNoId : Tx := { txFixture with txid := "" }

def respFF : WeightResp := ⟨some "ff", Option.none⟩

/-- `{"result": False}` with no `Error` or `code` field. -/
def pFalse : ApiPayload := .base ⟨Option.none, Option.none, Option.none⟩ .rFalse

/-- A provider that always answers `TransactionNotFound`, with instant polls. -/
def envNF : WaitEnv := ⟨fun _ => PollResp.notFound, fun _ => 0⟩

/-- A provider whose very first poll would already yield a receipt. -/
def envR : WaitEnv := ⟨fun _ => PollResp.receipt "r0", fun _ => 0⟩

/-- A reverted receipt whose call result is only 2 bytes (4 hex chars). -/
def rcShort : Receipt :=
  ⟨some "FAILED", some "REVERT opcode executed", some "REVERT", some ["aabb"]⟩

/-- A decoder that would return a string if it were ever consulted. -/
def decLoud : String → Option String := fun _ => some "spurious"

/-- An address codec that never raises and returns its input. -/
def b58W : String → Option String := fun x => some x

/-- A token-contract candidate whose call data has an unknown selector. -/
def txBadSel : ScanTx :=
  ⟨[⟨"TriggerSmartContract",
      ⟨Option.none, Option.none, Option.none, some USDT_CONTRACT_ADDRESS, some "dead"⟩⟩],
    some "t1", []⟩

def blockW : Block := ⟨⟨111, Option.none, Option.none⟩, Option.none, [txBadSel], Option.none⟩

def providerW : Int → Option Block := fun _ => some blockW

/-- The value of scanning block 7 of `providerW`: one candidate, one parse
failure, its txid recorded. -/
def scanResultW : ScanState :=
  ⟨[⟨7, 111, "", "", "", 1, true⟩], [], [], ⟨1, 1, 0, ["t1"]⟩⟩

/-- Call data of a `transfer(address,amount)` invocation: selector, 12 bytes
of padding, a 20-byte recipient, and the amount `0x0f4240 = 1000000`. -/
def dataTransfer : String :=
  "a9059cbb" ++ "000000000000000000000000"
    ++ "aabbccddeeff00112233445566778899aabbccdd" ++ "0f4240"

/-- A well-formed token-transfer candidate transaction. -/
def txTransfer : ScanTx :=
  ⟨[⟨"TriggerSmartContract",
      ⟨some "OWNER", Option.none, Option.none, some USDT_CONTRACT_ADDRESS, some dataTransfer⟩⟩],
    some "t7", []⟩

end Tronpy

namespace Tronpy

/-- Every poll of `waitAux` is issued at a clock reading strictly before
`endTime`. -/
theorem waitAux_polls_before_deadline (env : WaitEnv) (interval endTime : Int) :
    ∀ (fuel : Nat) (t : Int) (k : Nat),
      ∀ x ∈ (waitAux env interval endTime t k fuel).2, x < endTime := by
  intro fuel
  induction fuel with
  | zero => intro t k x hx; simp [waitAux] at hx
  | succ f ih =>
      intro t k x hx
      by_cases ht : t < endTime
      · rw [waitAux, if_pos ht] at hx
        cases hr : env.responses k with
        | receipt r => rw [hr] at hx; simp at hx; omega
        | raised e => rw [hr] at hx; simp at hx; omega
        | notFound =>
            rw [hr] at hx
            simp only [List.mem_cons] at hx
            rcases hx with hx | hx
            · omega
            · exact ih _ _ x hx
      · rw [waitAux, if_neg ht] at hx
        simp at hx

/-- If `waitAux` ends with `found r`, the provider yielded the receipt `r`
at some poll index at or beyond the starting index, and every earlier poll
from the starting index on answered not-found. -/
theorem waitAux_found_first (env : WaitEnv) (interval endTime : Int) :
    ∀ (fuel : Nat) (t : Int) (k : Nat) (r : String),
      (waitAux env interval endTime t k fuel).1 = .found r →
      ∃ j, k ≤ j ∧ env.responses j = .receipt r
        ∧ ∀ m, k ≤ m → m < j → env.responses m = .notFound := by
  intro fuel
  induction fuel with
  | zero => intro t k r h; simp [waitAux] at h
  | succ f ih =>
      intro t k r h
      by_cases ht : t < endTime
      · rw [waitAux, if_pos ht] at h
        cases hr : env.responses k with
        | receipt r' =>
            rw [hr] at h
            simp at h
            exact ⟨k, le_refl k, by rw [hr, h], fun m hm1 hm2 => absurd hm1 (by omega)⟩
        | raised e => rw [hr] at h; simp at h
        | notFound =>
            rw [hr] at h
            simp only at h
            obtain ⟨j, hj1, hj2, hj3⟩ := ih _ (k + 1) r h
            refine ⟨j, by omega, hj2, fun m hm1 hm2 => ?_⟩
            rcases Nat.eq_or_lt_of_le hm1 with hm | hm
            · rw [← hm]; exact hr
            · exact hj3 m (by omega) hm2
      · rw [waitAux, if_neg ht] at h
        simp at h

/-- If `waitAux` ends by propagating a fetch error, the provider raised that
error at some poll, and every earlier poll answered not-found: the loop
retries only on not-found. -/
theorem waitAux_raised_first (env : WaitEnv) (interval endTime : Int) :
    ∀ (fuel : Nat) (t : Int) (k : Nat) (e : String),
      (waitAux env interval endTime t k fuel).1 = .raised e →
      ∃ j, k ≤ j ∧ env.responses j = .raised e
        ∧ ∀ m, k ≤ m → m < j → env.responses m = .notFound := by
  intro fuel
  induction fuel with
  | zero => intro t k e h; simp [waitAux] at h
  | succ f ih =>
      intro t k e h
      by_cases ht : t < endTime
      · rw [waitAux, if_pos ht] at h
        cases hr : env.responses k with
        | receipt r' => rw [hr] at h; simp at h
        | raised e' =>
            rw [hr] at h
            simp at h
            exact ⟨k, le_refl k, by rw [hr, h], fun m hm1 hm2 => absurd hm1 (by omega)⟩
        | notFound =>
            rw [hr] at h
            simp only at h
            obtain ⟨j, hj1, hj2, hj3⟩ := ih _ (k + 1) e h
            refine ⟨j, by omega, hj2, fun m hm1 hm2 => ?_⟩
            rcases Nat.eq_or_lt_of_le hm1 with hm | hm
            · rw [← hm]; exact hr
            · exact hj3 m (by omega) hm2
      · rw [waitAux, if_neg ht] at h
        simp at h

/-- With a not-found-only provider, positive interval, non-negative poll
durations and enough fuel, `waitAux` ends with the deadline error. -/
theorem waitAux_timeout (env : WaitEnv) (interval endTime : Int)
    (hi : 1 ≤ interval) (hd : ∀ k, 0 ≤ env.pollDur k)
    (hr : ∀ k, env.responses k = .notFound) :
    ∀ (fuel : Nat) (t : Int) (k : Nat), (endTime - t).toNat < fuel →
      (waitAux env interval endTime t k fuel).1 = .timeoutNotFound := by
  intro fuel
  induction fuel with
  | zero => intro t k h; omega
  | succ f ih =>
      intro t k h
      by_cases ht : t < endTime
      · rw [waitAux, if_pos ht, hr k]
        simp only
        refine ih (t + env.pollDur k + interval) (k + 1) ?_
        have := hd k
        omega
      · rw [waitAux, if_neg ht]

/-- The native-TRX branch never touches the stats accumulator. -/
theorem nativeStep_stats (b58 : String → Option String) (address : Option String)
    (block_num ts : Int) (tx : ScanTx) (s s' : ScanState)
    (h : nativeStep b58 address block_num ts tx s = .ok s') : s'.stats = s.stats := by
  unfold nativeStep at h
  repeat' split at h
  all_goals cases h <;> rfl

/-- The token branch preserves the counting invariant. -/
theorem usdtStep_inv (b58 : String → Option String) (address : Option String)
    (block_num ts : Int) (tx : ScanTx) (s s' : ScanState)
    (hInv : StatsInv s) (h : usdtStep b58 address block_num ts tx s = .ok s') :
    StatsInv s' := by
  obtain ⟨h1, h2⟩ := hInv
  unfold usdtStep at h
  repeat' split at h
  all_goals cases h
  all_goals constructor <;> simp_all <;> omega

/-- The whole per-transaction body preserves the counting invariant. -/
theorem stepTx_inv (b58 : String → Option String) (address : Option String)
    (block_num ts : Int) (tx : ScanTx) (s s' : ScanState)
    (hInv : StatsInv s) (h : stepTx b58 address block_num ts tx s = .ok s') :
    StatsInv s' := by
  unfold stepTx at h
  cases hn : nativeStep b58 address block_num ts tx s with
  | error err => rw [hn] at h; simp [bind, Except.bind] at h
  | ok s1 =>
      rw [hn] at h
      simp only [bind, Except.bind] at h
      have hst := nativeStep_stats b58 address block_num ts tx s s1 hn
      have hInv1 : StatsInv s1 := by unfold StatsInv; rw [hst]; exact hInv
      exact usdtStep_inv b58 address block_num ts tx s1 s' hInv1 h

/-- An `Except`-valued fold preserves any invariant its step preserves. -/
theorem foldlM_except_inv {σ α ε : Type} (P : σ → Prop) (f : σ → α → Except ε σ)
    (hf : ∀ s a s', P s → f s a = .ok s' → P s') :
    ∀ (l : List α) (s s' : σ), P s → l.foldlM f s = .ok s' → P s' := by
  intro l
  induction l with
  | nil =>
      intro s s' hP h
      simp only [List.foldlM_nil, pure, Except.pure] at h
      cases h
      exact hP
  | cons a l ih =>
      intro s s' hP h
      rw [List.foldlM_cons] at h
      cases hfa : f s a with
      | error err => rw [hfa] at h; simp [bind, Except.bind] at h
      | ok s1 =>
          rw [hfa] at h
          simp only [bind, Except.bind] at h
          exact ih s1 s' (hf s a s1 hP hfa) h

/-- The per-block body preserves the counting invariant. -/
theorem stepBlock_inv (b58 : String → Option String) (provider : Int → Option Block)
    (address : Option String) (s s' : ScanState) (block_num : Int)
    (hInv : StatsInv s) (h : stepBlock b58 provider address s block_num = .ok s') :
    StatsInv s' := by
  unfold stepBlock at h
  repeat' split at h
  · cases h
  · cases h
  · refine foldlM_except_inv StatsInv _ ?_ _ _ s' ?_ h
    · intro s0 tx s1 hP hstep
      exact stepTx_inv _ _ _ _ tx s0 s1 hP hstep
    · exact hInv

end Tronpy

open Tronpy

/-- C1 (amended): for a transaction whose txid is set and which is not yet
expired, signing with a key whose hex address appears in no entry of the
present permission's key list fails with the key-not-authorized error carrying
the required permission set, and the whole transaction state — in particular
its signature list — is unchanged. -/
theorem sign_unauthorized_key_rejected (s : Tx) (k : PrivKey) (now : Int) (p : Permission)
    (htx : s.txid ≠ "") (hexp : s.is_expired now = false)
    (hperm : s.permission = .present p)
    (hkey : ∀ kk ∈ p.keys, kk.address ≠ k.hexAddress) :
    s.sign k now = (some (.keyNotAuthorized p), s) := by
  unfold Tx.sign
  rw [if_neg htx, hexp, hperm]
  simp only [Bool.false_eq_true, if_false]
  have hany : p.keys.any (fun kk => kk.address = k.hexAddress) = false := by
    rw [List.any_eq_false]
    intro kk hkk
    simpa using hkey kk hkk
  rw [hany]
  simp

/-- Witness for C1: concrete run of `sign_unauthorized_key_rejected`. -/
theorem sign_unauthorized_key_rejected_witness :
    txFixture.sign keyBB 5 = (some (.keyNotAuthorized permAA), txFixture) :=
  sign_unauthorized_key_rejected txFixture keyBB 5 permAA
    (by decide) (by decide) rfl (by decide)

/-- Counterexample to C1 as stated: an expired transaction whose permission is
present and whose signer's address is in no key-list entry fails with the
`expired` error, not with `keyNotAuthorized`. -/
theorem sign_unauthorized_key_expired_counterexample :
    (txFixture.sign keyBB 20 = (some .expired, txFixture)
      ∧ txFixture.is_expired 20 = true
      ∧ txFixture.permission = .present permAA
      ∧ permAA.keys.all (fun kk => kk.address ≠ keyBB.hexAddress) = true)
      ∧ ¬ ∃ p, (txFixture.sign keyBB 20).1 = some (.keyNotAuthorized p) := by
  refine ⟨⟨by decide, by decide, rfl, by decide⟩, ?_⟩
  rintro ⟨p, hp⟩
  have : (txFixture.sign keyBB 20).1 = some SignErr.expired := by decide
  rw [this] at hp
  exact absurd (Option.some.inj hp) (by intro h; cases h)

/-- C2 (amended): for a transaction whose txid is set, once the wall clock
reaches the expiration field signing fails with the `expired` error for any
signer and the state (hence the signature list) is unchanged; `is_expired` is
exactly the predicate `now ≥ expiration`. -/
theorem sign_expired_rejected (s : Tx) (k : PrivKey) (now : Int)
    (htx : s.txid ≠ "") (hexp : s.raw_data.expiration ≤ now) :
    s.sign k now = (some .expired, s) ∧ s.is_expired now = true := by
  have hb : s.is_expired now = true := by
    simpa [Tx.is_expired] using hexp
  refine ⟨?_, hb⟩
  unfold Tx.sign
  rw [if_neg htx, hb]
  simp

/-- Witness for C2: concrete run of `sign_expired_rejected`. -/
theorem sign_expired_rejected_witness :
    txFixture.sign keyBB 10 = (some .expired, txFixture)
      ∧ txFixture.is_expired 10 = true :=
  sign_expired_rejected txFixture keyBB 10 (by decide) (by decide)

/-- Counterexample to C2 as stated: a transaction with empty txid and
`now ≥ expiration` fails with the txid-not-calculated assertion, not with
the `expired` error, because the txid assertion precedes the expiration
check in `sign`. -/
theorem sign_expired_empty_txid_counterexample :
    (txNoId.sign keyBB 20 = (some .txidNotCalculated, txNoId)
      ∧ txNoId.raw_data.expiration ≤ 20)
      ∧ (txNoId.sign keyBB 20).1 ≠ some SignErr.expired := by
  refine ⟨⟨by decide, by decide⟩, ?_⟩
  intro h
  have : (txNoId.sign keyBB 20).1 = some SignErr.txidNotCalculated := by decide
  rw [this] at h
  exact absurd (Option.some.inj h) (by intro hh; cases hh)

/-- C4 (amended): for a transaction with a non-empty txid whose permission is
not the `EMPTY` sentinel, serializing with `to_json` and reconstructing with
`from_json` yields exactly the original transaction (same txid, raw_data,
signature list and permission) and performs no weight-check round trip,
whatever the provider would have answered. -/
theorem to_json_from_json_roundtrip (resp : WeightResp) (t : Tx)
    (htx : t.txid ≠ "") (hperm : t.permission ≠ PermState.empty) :
    from_json resp t.to_json = .ok (t, false) := by
  cases t with
  | mk txid raw perm sigs =>
    cases perm with
    | empty => exact absurd rfl hperm
    | none =>
      simp_all [from_json, create, initTx, Tx.to_json, permOfOption]
    | present p =>
      simp_all [from_json, create, initTx, Tx.to_json, permOfOption]

/-- Witness for C4: concrete run of `to_json_from_json_roundtrip`. -/
theorem to_json_from_json_roundtrip_witness :
    from_json respFF txFixture.to_json = .ok (txFixture, false) :=
  to_json_from_json_roundtrip respFF txFixture (by decide) (by decide)

/-- Counterexample to C4 as stated: a transaction with an empty txid is
re-validated by `from_json` — the reconstruction consults the provider
(round-trip flag `true`) and comes back with the provider's txid and
permission, not the original's. -/
theorem from_json_empty_txid_counterexample :
    from_json respFF txNoId.to_json
        = .ok ({ txNoId with txid := "ff", permission := PermState.none }, true)
      ∧ "ff" ≠ txNoId.txid ∧ PermState.none ≠ txNoId.permission := by
  exact ⟨rfl, by decide, by decide⟩

/-- C5 (amended): the classifier's behaviour, level by level.  When the
`result` field is not the boolean `True`: an `Error` field raises `ApiError`;
otherwise a `code` field raises exactly the kind given by the spec's
code-to-kind table (`specCodeTag`); otherwise a nested dict-valued `result`
is recursed into, and any other payload — including an explicit
`result: false` — is treated as successful. -/
theorem handle_api_error_classification :
    (∀ l r e, r ≠ BaseResult.rTrue → l.errorF = some e →
        handleApiError (.base l r) = .error (.apiError e))
    ∧ (∀ l p e, l.errorF = some e →
        handleApiError (.nestedR l p) = .error (.apiError e))
    ∧ (∀ l r c, r ≠ BaseResult.rTrue → l.errorF = Option.none → l.code = some c →
        outcomeTag (handleApiError (.base l r)) = some (specCodeTag c))
    ∧ (∀ l p c, l.errorF = Option.none → l.code = some c →
        outcomeTag (handleApiError (.nestedR l p)) = some (specCodeTag c))
    ∧ (∀ l p, l.errorF = Option.none → l.code = Option.none →
        handleApiError (.nestedR l p) = handleApiError p)
    ∧ (∀ l r, r ≠ BaseResult.rTrue → l.errorF = Option.none → l.code = Option.none →
        handleApiError (.base l r) = .ok ()) := by
  have htag : ∀ c m, tagOf (codeError c m) = specCodeTag c := by
    intro c m
    unfold codeError specCodeTag
    split
    · rfl
    · split
      · rfl
      · split
        · rfl
        · split <;> rfl
  refine ⟨?_, ?_, ?_, ?_, ?_, ?_⟩
  · intro l r e hr he
    simp [handleApiError, hr, he]
  · intro l p e he
    simp [handleApiError, he]
  · intro l r c hr he hc
    simp [handleApiError, hr, he, hc, outcomeTag, htag]
  · intro l p c he hc
    simp [handleApiError, he, hc, outcomeTag, htag]
  · intro l p he hc
    simp [handleApiError, he, hc]
  · intro l r hr he hc
    simp [handleApiError, hr, he, hc]

/-- Witness for C5: a `SIGERROR` payload under a non-`True` result is
classified as a bad-signature error. -/
theorem handle_api_error_classification_witness :
    outcomeTag (handleApiError
        (.base ⟨Option.none, some "SIGERROR", Option.none⟩ BaseResult.rFalse))
      = some (specCodeTag "SIGERROR") :=
  handle_api_error_classification.2.2.1
    ⟨Option.none, some "SIGERROR", Option.none⟩ BaseResult.rFalse "SIGERROR"
    (by decide) rfl rfl

/-- Counterexample to C5 as stated: the payload `{"result": False}` (no
`Error`, no `code`) is treated as successful by `_handle_api_error`, although
the claim's stated success condition excludes any payload with an explicit
`result: false`. -/
theorem handle_api_error_result_false_counterexample :
    handleApiError pFalse = .ok () ∧ specSuccessStated pFalse = false :=
  ⟨rfl, rfl⟩

/-- C10: a top-level `result` equal to the boolean `True` makes the
classifier return successfully regardless of any `Error`, `code` or
`message` field in the same payload. -/
theorem handle_api_error_result_true_precedence (l : ApiLevel) :
    handleApiError (.base l BaseResult.rTrue) = .ok () := by
  simp [handleApiError]

/-- C3 (amended): `wait` never issues a poll at or after the deadline
`t0 + timeout`; it polls at least once whenever `timeout` is strictly
positive (with zero or negative timeout it issues no poll at all and fails
immediately); it returns the first receipt the provider yields, retrying
only on not-found responses and propagating any other fetch error; and when
the provider keeps answering not-found it raises the
not-found-within-deadline error once the deadline is exceeded. -/
theorem wait_poll_behavior (env : WaitEnv) (timeout interval t0 : Int) (fuel : Nat) :
    (∀ x ∈ (wait env timeout interval t0 fuel).2, x < t0 + timeout)
    ∧ (0 < timeout → 0 < fuel → (wait env timeout interval t0 fuel).2 ≠ [])
    ∧ (∀ r, (wait env timeout interval t0 fuel).1 = .found r →
        ∃ j, env.responses j = .receipt r
          ∧ ∀ m, m < j → env.responses m = .notFound)
    ∧ (∀ e, (wait env timeout interval t0 fuel).1 = .raised e →
        ∃ j, env.responses j = .raised e
          ∧ ∀ m, m < j → env.responses m = .notFound)
    ∧ (1 ≤ interval → (∀ k, 0 ≤ env.pollDur k) →
        (∀ k, env.responses k = .notFound) → timeout.toNat < fuel →
        (wait env timeout interval t0 fuel).1 = .timeoutNotFound) := by
  refine ⟨?_, ?_, ?_, ?_, ?_⟩
  · exact waitAux_polls_before_deadline env interval (t0 + timeout) fuel t0 0
  · intro htm hf
    obtain ⟨f, rfl⟩ : ∃ f, fuel = f + 1 := ⟨fuel - 1, by omega⟩
    unfold wait waitAux
    rw [if_pos (by omega : t0 < t0 + timeout)]
    cases env.responses 0 <;> simp
  · intro r h
    obtain ⟨j, _, hj2, hj3⟩ := waitAux_found_first env interval (t0 + timeout) fuel t0 0 r h
    exact ⟨j, hj2, fun m hm => hj3 m (Nat.zero_le m) hm⟩
  · intro e h
    obtain ⟨j, _, hj2, hj3⟩ := waitAux_raised_first env interval (t0 + timeout) fuel t0 0 e h
    exact ⟨j, hj2, fun m hm => hj3 m (Nat.zero_le m) hm⟩
  · intro hi hd hr hfu
    exact waitAux_timeout env interval (t0 + timeout) hi hd hr fuel t0 0 (by omega)

/-- Witness for C3: six units of fuel suffice for a five-unit timeout against
a provider that always answers not-found, and the call ends with the
deadline error. -/
theorem wait_poll_behavior_witness :
    (wait envNF 5 1 0 6).1 = .timeoutNotFound :=
  (wait_poll_behavior envNF 5 1 0 6).2.2.2.2
    (by decide) (fun _ => Int.le_refl 0) (fun _ => rfl) (by decide)

/-- Counterexample to C3 as stated: with `timeout = 0` the loop guard
`time.time() < end_time` is false at once, so `wait` issues zero polls and
raises, even though the provider's very first poll would have yielded a
receipt — it does not "poll at least once" for zero or negative timeouts. -/
theorem wait_zero_timeout_counterexample :
    wait envR 0 1 0 10 = (.timeoutNotFound, [])
      ∧ envR.responses 0 = .receipt "r0" :=
  ⟨rfl, rfl⟩

/-- C6: on a receipt with `result == "FAILED"` and `receipt.result ==
"REVERT"` whose first `contractResult` entry has at most `(4 + 32) * 2 = 72`
hex characters, `result()` raises the TVM error with the original message
unchanged for every possible ABI decoder — no decode is attempted; a decode
is consulted only for entries strictly longer than 72 hex characters, and
even then a decode exception is swallowed, preserving the original message,
while a successful decode appends the decoded string. -/
theorem result_revert_decode_policy (dec : String → Option String)
    (parseOut : String → String) (r : Receipt) (c0 : String) (rest : List String)
    (hres : r.result = some "FAILED")
    (hrr : r.receiptResult = some "REVERT")
    (hcr : r.contractResult = some (c0 :: rest)) :
    (c0.length ≤ (4 + 32) * 2 →
        interpretReceipt dec parseOut r
          = .error (.tvmError (r.resMessage.getD "FAILED")))
    ∧ ((4 + 32) * 2 < c0.length → dec c0 = Option.none →
        interpretReceipt dec parseOut r
          = .error (.tvmError (r.resMessage.getD "FAILED")))
    ∧ (∀ em, (4 + 32) * 2 < c0.length → dec c0 = some em →
        interpretReceipt dec parseOut r
          = .error (.tvmError (r.resMessage.getD "FAILED" ++ ": " ++ em))) := by
  refine ⟨?_, ?_, ?_⟩
  · intro hlen
    simp [interpretReceipt, hres, hrr, hcr, revertMsg, Nat.not_lt.mpr hlen]
  · intro hlen hdec
    simp [interpretReceipt, hres, hrr, hcr, revertMsg, hlen, hdec]
  · intro em hlen hdec
    simp [interpretReceipt, hres, hrr, hcr, revertMsg, hlen, hdec]

/-- Witness for C6: a 4-hex-char reverted call result keeps its message even
against a decoder that would have produced extra text. -/
theorem result_revert_decode_policy_witness :
    interpretReceipt decLoud id rcShort
      = .error (.tvmError "REVERT opcode executed") :=
  (result_revert_decode_policy decLoud id rcShort "aabb" [] rfl rfl rfl).1
    (by decide)

/-- C8: every completed scan satisfies the candidate-counting invariant —
each token-transfer candidate incremented the total counter and exactly one
of the success/failure counters, so `successful_parse + failed_parse` equals
the total candidate count and there is one recorded txid per parse failure. -/
theorem scan_stats_invariant (b58 : String → Option String)
    (provider : Int → Option Block) (address : Option String)
    (start_block end_block : Int) (s : ScanState)
    (h : scan_block_transfers b58 provider address start_block end_block = .ok s) :
    s.stats.successful_parse + s.stats.failed_parse = s.stats.total_transactions
      ∧ s.stats.failed_txids.length = s.stats.failed_parse := by
  refine foldlM_except_inv StatsInv (stepBlock b58 provider address)
    ?_ (blockRange start_block end_block) initScanState s ?_ h
  · intro s0 bn s1 hP hstep
    exact stepBlock_inv b58 provider address s0 s1 bn hP hstep
  · exact ⟨rfl, rfl⟩

/-- Witness for C8: scanning block 7 of the fixture provider — one candidate
with an unknown selector — completes with balanced counters. -/
theorem scan_stats_invariant_witness :
    scanResultW.stats.successful_parse + scanResultW.stats.failed_parse
        = scanResultW.stats.total_transactions
      ∧ scanResultW.stats.failed_txids.length = scanResultW.stats.failed_parse :=
  scan_stats_invariant b58W providerW Option.none 7 7 scanResultW (by rfl)

/-- C7: the token-call parser classifies by the first 8 hex characters of the
call data.  Selector `a9059cbb` decodes a transfer: recipient is the address
codec applied to `"41"` prepended to hex characters 32–72, the amount is the
big-endian integer of the characters from offset 72 divided by `10 ^ 6`.
Selector `23b872dd` decodes a transferFrom with owner at 32–72, recipient at
72–112 and amount from 112.  Any other selector parses to `None`, and at scan
level such a candidate increments `failed_parse` and records its txid in
`failed_txids`. -/
theorem parse_usdt_transfer_classification (b58 : String → Option String) :
    (∀ (tx : ScanTx) (c : ContractInv) (rest : List ContractInv)
        (d oa fromA toA id : String) (n : Nat) (bn ts : Int),
        tx.contracts = c :: rest →
        c.value.data = some d →
        "a9059cbb".toList.isPrefixOf d.toList = true →
        b58 ("41" ++ strSlice d 32 72) = some toA →
        hexToNat? (strDrop d 72) = some n →
        c.value.owner_address = some oa →
        b58 oa = some fromA →
        tx.txID = some id →
        parse_usdt_transfer b58 tx bn ts
          = some ⟨bn, ts, id, fromA, toA, (n : ℚ) / 10 ^ 6, "transfer", Option.none⟩)
    ∧ (∀ (tx : ScanTx) (c : ContractInv) (rest : List ContractInv)
        (d fromA toA id : String) (n : Nat) (bn ts : Int),
        tx.contracts = c :: rest →
        c.value.data = some d →
        "a9059cbb".toList.isPrefixOf d.toList = false →
        "23b872dd".toList.isPrefixOf d.toList = true →
        b58 ("41" ++ strSlice d 32 72) = some fromA →
        b58 ("41" ++ strSlice d 72 112) = some toA →
        hexToNat? (strDrop d 112) = some n →
        tx.txID = some id →
        parse_usdt_transfer b58 tx bn ts
          = some ⟨bn, ts, id, fromA, toA, (n : ℚ) / 10 ^ 6, "transferFrom", Option.none⟩)
    ∧ (∀ (tx : ScanTx) (c : ContractInv) (rest : List ContractInv) (d : String) (bn ts : Int),
        tx.contracts = c :: rest →
        c.value.data = some d →
        "a9059cbb".toList.isPrefixOf d.toList = false →
        "23b872dd".toList.isPrefixOf d.toList = false →
        parse_usdt_transfer b58 tx bn ts = Option.none)
    ∧ (∀ (address : Option String) (tx : ScanTx) (c : ContractInv)
        (rest : List ContractInv) (ca id : String) (bn ts : Int) (s : ScanState),
        tx.contracts = c :: rest →
        c.type = "TriggerSmartContract" →
        c.value.contract_address = some ca →
        b58 ca = some USDT_CONTRACT_ADDRESS →
        parse_usdt_transfer b58 tx bn ts = Option.none →
        tx.txID = some id →
        usdtStep b58 address bn ts tx s
          = .ok { s with stats := ⟨s.stats.total_transactions + 1,
              s.stats.failed_parse + 1, s.stats.successful_parse,
              s.stats.failed_txids ++ [id]⟩ }) := by
  refine ⟨?_, ?_, ?_, ?_⟩
  · intro tx c rest d oa fromA toA id n bn ts hc hd hpre hto hhex hoa hfrom hid
    unfold parse_usdt_transfer
    simp only [hc, hd, Option.getD_some]
    rw [if_pos hpre]
    simp only [hto, hhex, hoa, hfrom, hid]
  · intro tx c rest d fromA toA id n bn ts hc hd hpre1 hpre2 hfrom hto hhex hid
    unfold parse_usdt_transfer
    simp only [hc, hd, Option.getD_some]
    rw [if_neg (show ¬("a9059cbb".toList.isPrefixOf d.toList = true) by rw [hpre1]; decide),
      if_pos hpre2]
    simp only [hfrom, hto, hhex, hid]
  · intro tx c rest d bn ts hc hd hpre1 hpre2
    unfold parse_usdt_transfer
    simp only [hc, hd, Option.getD_some]
    rw [if_neg (show ¬("a9059cbb".toList.isPrefixOf d.toList = true) by rw [hpre1]; decide),
      if_neg (show ¬("23b872dd".toList.isPrefixOf d.toList = true) by rw [hpre2]; decide)]
  · intro address tx c rest ca id bn ts s hc ht hca hb hparse hid
    unfold usdtStep
    simp only [hc]
    rw [if_pos ht]
    simp only [hca, hb]
    rw [if_pos trivial]
    simp only [hparse, hid]

/-- Witness for C7: decoding the fixture `transfer` call data yields the
expected recipient, source and scaled amount. -/
theorem parse_usdt_transfer_classification_witness :
    parse_usdt_transfer b58W txTransfer 100 5
      = some ⟨100, 5, "t7", "OWNER",
          "41aabbccddeeff00112233445566778899aabbccdd",
          (1000000 : ℚ) / 10 ^ 6, "transfer", Option.none⟩ :=
  (parse_usdt_transfer_classification b58W).1 txTransfer
    ⟨"TriggerSmartContract",
      ⟨some "OWNER", Option.none, Option.none, some USDT_CONTRACT_ADDRESS, some dataTransfer⟩⟩
    [] dataTransfer "OWNER" "OWNER"
    "41aabbccddeeff00112233445566778899aabbccdd" "t7" 1000000 100 5
    rfl rfl (by decide) rfl (by decide) rfl rfl rfl

/-- C9: on any token-contract candidate (single contract entry of type
`TriggerSmartContract` whose contract address resolves to the fixed token
address) carrying a txid, the per-transaction scan body never aborts,
whatever the call data, owner field or remaining payload contain: the
candidate is counted, and a parse failure is recorded in the statistics
rather than raised. -/
theorem token_decode_never_aborts_scan (b58 : String → Option String)
    (address : Option String) (bn ts : Int) (tx : ScanTx) (c : ContractInv)
    (rest : List ContractInv) (ca id : String) (s : ScanState)
    (hc : tx.contracts = c :: rest)
    (ht : c.type = "TriggerSmartContract")
    (hca : c.value.contract_address = some ca)
    (hb : b58 ca = some USDT_CONTRACT_ADDRESS)
    (hid : tx.txID = some id) :
    ∃ s', stepTx b58 address bn ts tx s = .ok s'
      ∧ s'.stats.total_transactions = s.stats.total_transactions + 1
      ∧ (parse_usdt_transfer b58 tx bn ts = Option.none →
          s'.stats.failed_parse = s.stats.failed_parse + 1
            ∧ s'.stats.failed_txids = s.stats.failed_txids ++ [id]) := by
  have hn : nativeStep b58 address bn ts tx s = .ok s := by
    unfold nativeStep
    simp only [hc]
    rw [if_neg (show ¬(c.type = "TransferContract") by rw [ht]; decide)]
  have hstep : stepTx b58 address bn ts tx s = usdtStep b58 address bn ts tx s := by
    unfold stepTx
    rw [hn]
    rfl
  rw [hstep]
  unfold usdtStep
  simp only [hc]
  rw [if_pos ht]
  simp only [hca, hb]
  rw [if_pos trivial]
  cases hparse : parse_usdt_transfer b58 tx bn ts with
  | none =>
      simp only [hid]
      exact ⟨_, rfl, rfl, fun _ => ⟨rfl, rfl⟩⟩
  | some info =>
      exact ⟨_, rfl, rfl, fun hnone => Option.noConfusion hnone⟩

/-- Witness for C9: the unknown-selector candidate is absorbed into the
statistics without aborting the scan step. -/
theorem token_decode_never_aborts_scan_witness :
    ∃ s', stepTx b58W Option.none 7 111 txBadSel initScanState = .ok s'
      ∧ s'.stats.total_transactions = initScanState.stats.total_transactions + 1
      ∧ (parse_usdt_transfer b58W txBadSel 7 111 = Option.none →
          s'.stats.failed_parse = initScanState.stats.failed_parse + 1
            ∧ s'.stats.failed_txids = initScanState.stats.failed_txids ++ ["t1"]) :=
  token_decode_never_aborts_scan b58W Option.none 7 111 txBadSel
    ⟨"TriggerSmartContract",
      ⟨Option.none, Option.none, Option.none, some USDT_CONTRACT_ADDRESS, some "dead"⟩⟩
    [] USDT_CONTRACT_ADDRESS "t1" initScanState rfl rfl rfl rfl rfl
